import Mathlib

/-!
Shallow embedding of the runner-lifecycle orchestrator of kro-actions-runner.

The embedded code lives in:
  * internal/kro_runner.go — `findRGDByLabel`, `CreateResources`,
    `WaitForResourceGraph`, `DeleteResources`, `toResourceName`, the
    process-local `AppContext`;
  * cmd/kar/app (root command) — `run`, the Create → Wait → Delete sequence;
  * cmd/kar (main) — `ensureValidCleanupContext`.

Remote Kubernetes calls (pod get, RGD list, instance create/delete/watch,
secret delete) are modelled by explicit environments that carry the result
each call would return, and by an effect trace listing the remote calls the
function attempts, in order.  Go `error` values are modelled by `String`
payloads where only identity matters.
-/

deriving instance DecidableEq for Except

namespace KroRunner

/-- Label key used for RGD discovery (constant `rgdLabelKey`). -/
def rgdLabelKey : String := "actions.github.com/scale-set-name"

/-- Annotation key storing runner metadata (constant `runnerMetadataAnnotation`). -/
def runnerMetadataAnnot : String := "actions.github.com/runner-metadata"

/-- Fields of `KRORunner` that the embedded operations read: the namespace and
the scale-set name (the dynamic/kube clients are replaced by the per-call
environments). -/
structure KRORunnerCfg where
  ns : String
  scaleSetName : String
deriving DecidableEq, Repr

/-- The process-local `AppContext` of internal/kro_runner.go: `vmiName`
(repurposed for the runner name) and `dataVolumeName` (repurposed for the
secret name). -/
structure AppContext where
  vmiName : String
  dataVolumeName : String
deriving DecidableEq, Repr

/-- `GetAppContext`: the global pointer, `none` when no context was ever set;
a nil pointer is replaced by the empty context. -/
def getAppContext (st : Option AppContext) : AppContext :=
  st.getD ⟨"", ""⟩

/-- One item of the RGD list returned by the dynamic client: its name,
namespace, and the nested string at `spec.schema.kind` (`none` when
`unstructured.NestedString` errors or does not find the field). -/
structure RGDItem where
  name : String
  ns : String
  schemaKind : Option String
deriving DecidableEq, Repr

/-- `RGDInfo`: information about a discovered ResourceGraphDefinition. -/
structure RGDInfo where
  name : String
  ns : String
  kind : String
deriving DecidableEq, Repr

/-- The error outcomes of `findRGDByLabel`: the list call failed, no RGD
matched, several matched, or the single match misses `spec.schema.kind`. -/
inductive RGDError
  | listFailed (e : String)
  | notFound
  | ambiguous
  | missingKind (rgdName : String)
deriving DecidableEq, Repr

/-- `toResourceName`: Kind to resource name, naive lowercase plus "s"
(PodRunner -> podrunners). -/
def toResourceName (kind : String) : String :=
  kind.toLower ++ "s"

/-- The label selector `findRGDByLabel` lists with:
`fmt.Sprintf("%s=%s", rgdLabelKey, r.scaleSetName)`. -/
def labelSelector (r : KRORunnerCfg) : String :=
  rgdLabelKey ++ "=" ++ r.scaleSetName

/-- `findRGDByLabel`, parameterised by the result of the remote list call:
errors of the list are wrapped; zero items is a not-found failure; more than
one item is an ambiguity failure; otherwise the first item's
`spec.schema.kind` must be present. -/
def findRGDByLabel (listResult : Except String (List RGDItem)) :
    Except RGDError RGDInfo :=
  match listResult with
  | .error e => .error (.listFailed e)
  | .ok items =>
    if items.length = 0 then .error .notFound
    else if 1 < items.length then .error .ambiguous
    else
      match items.head? with
      | none => .error .notFound
      | some rgd =>
        match rgd.schemaKind with
        | none => .error (.missingKind rgd.name)
        | some kind => .ok ⟨rgd.name, rgd.ns, kind⟩

/-- A pod object as used by `CreateResources`: only name and UID are read. -/
structure Pod where
  name : String
  uid : String
deriving DecidableEq, Repr

/-- An owner reference as set on the created instance. -/
structure OwnerRef where
  apiVersion : String
  kind : String
  name : String
  uid : String
  controller : Bool
deriving DecidableEq, Repr

/-- The ResourceGraph instance object built by `CreateResources`. -/
structure RGInstance where
  group : String
  version : String
  kind : String
  name : String
  ns : String
  annots : List (String × String)
  labels : List (String × String)
  ownerRefs : List OwnerRef
  specRunnerName : String
deriving DecidableEq, Repr

/-- The JSON blob `json.Marshal` produces for the metadata map (Go marshals
map keys in sorted order: createdTimestamp, jitConfigSecret, runnerName,
scaleSetName; the jitConfigSecret equals the runner name). -/
def metadataJSON (runnerName scaleSetName createdTimestamp : String) : String :=
  "\x7b\"createdTimestamp\":\"" ++ createdTimestamp ++
  "\",\"jitConfigSecret\":\"" ++ runnerName ++
  "\",\"runnerName\":\"" ++ runnerName ++
  "\",\"scaleSetName\":\"" ++ scaleSetName ++ "\"\x7d"

/-- The instance object assembled by `CreateResources` between the metadata
annotation and the create call. -/
def buildRGInstance (r : KRORunnerCfg) (rgdInfo : RGDInfo) (pod : Pod)
    (runnerName now : String) : RGInstance :=
  { group := "kro.run"
  , version := "v1alpha1"
  , kind := rgdInfo.kind
  , name := runnerName
  , ns := r.ns
  , annots := [(runnerMetadataAnnot, metadataJSON runnerName r.scaleSetName now)]
  , labels := [("actions.github.com/scale-set-name", r.scaleSetName),
               ("kro.run/runner-name", runnerName)]
  , ownerRefs := [⟨"v1", "Pod", pod.name, pod.uid, false⟩]
  , specRunnerName := runnerName }

/-- The remote calls the embedded operations can attempt, recorded as an
effect trace. -/
inductive RemoteCall
  | podGet (ns name : String)
  | rgdList (selector : String)
  | instanceCreate (resource ns : String) (obj : RGInstance)
  | instanceDel (resource ns name : String)
  | secretDel (ns name : String)
  | watchOpen (resource ns fieldSelector : String)
deriving DecidableEq, Repr

/-- Whether a remote call is a secret deletion. -/
def RemoteCall.isSecretDel : RemoteCall → Bool
  | .secretDel _ _ => true
  | _ => false

/-- Whether a trace of remote calls contains no secret deletion. -/
def noSecretDel (calls : List RemoteCall) : Bool :=
  calls.all fun c => !c.isSecretDel

/-- The error outcomes of `CreateResources` (wrapping collapsed to
constructors). -/
inductive CreateError
  | emptyRunnerName
  | emptyJitConfig
  | podLookupFailed (e : String)
  | discoveryFailed (e : RGDError)
  | createFailed (e : String)
deriving DecidableEq, Repr

/-- The environment of one `CreateResources` call: what the orchestrator-pod
get, the RGD list, and the instance create would return, and the formatted
current time used for the annotation. -/
structure CreateEnv where
  podGet : Except String Pod
  rgdList : Except String (List RGDItem)
  instanceCreate : Except String Unit
  now : String
deriving DecidableEq, Repr

/-- `CreateResources ctx runnerName jitConfig`, returning the Go result, the
new process-local context, the trace of remote calls attempted, and the
instance object submitted to the create call (when one was built).
Validation failures return before any remote call; the context is updated
(`NewAppContext(runnerName, "")`) only after the create call succeeded. -/
def CreateResources (r : KRORunnerCfg) (env : CreateEnv) (st : Option AppContext)
    (runnerName jitConfig : String) :
    Except CreateError Unit × Option AppContext × List RemoteCall × Option RGInstance :=
  if runnerName.length = 0 then (.error .emptyRunnerName, st, [], none)
  else if jitConfig.length = 0 then (.error .emptyJitConfig, st, [], none)
  else
    match env.podGet with
    | .error e => (.error (.podLookupFailed e), st, [.podGet r.ns runnerName], none)
    | .ok pod =>
      match findRGDByLabel env.rgdList with
      | .error e =>
        (.error (.discoveryFailed e), st,
         [.podGet r.ns runnerName, .rgdList (labelSelector r)], none)
      | .ok rgdInfo =>
        let inst := buildRGInstance r rgdInfo pod runnerName env.now
        let calls : List RemoteCall :=
          [.podGet r.ns runnerName, .rgdList (labelSelector r),
           .instanceCreate (toResourceName rgdInfo.kind) r.ns inst]
        match env.instanceCreate with
        | .error e => (.error (.createFailed e), st, calls, some inst)
        | .ok _ => (.ok (), some ⟨runnerName, ""⟩, calls, some inst)

/-- One entry of `status.conditions` after the `map[string]interface{}` cast:
its "type" and "status" keys, with the Go string-cast default "" when a key
is absent or not a string. -/
structure Condition where
  condType : String
  condStatus : String
deriving DecidableEq, Repr

/-- The parts of a watched ResourceGraph object that `WaitForResourceGraph`
reads: `status.state` (`none` when `NestedString` errors or misses),
`status.conditions` (`none` when `NestedSlice` errors or misses; a `none`
item is a slice entry that is not a map and is skipped), and the runner-pod
status at `status.resources.runnerPod.status` (`none` when `NestedMap`
errors or misses; otherwise the "phase" value after the string cast). -/
structure RGObject where
  state : Option String
  conditions : Option (List (Option Condition))
  podStatus : Option String
deriving DecidableEq, Repr

/-- The terminal outcomes of the wait loop: nil, `ErrRunnerFailed`, the
watch-error event failure, or the context's own error returned verbatim. -/
inductive WaitOutcome
  | ok
  | runnerFailed
  | watchError
  | ctxError (e : String)
deriving DecidableEq, Repr

/-- What one loop iteration does: keep waiting, or return an outcome. -/
inductive StepResult
  | cont
  | done (o : WaitOutcome)
deriving DecidableEq, Repr

/-- Outcome derived from the runner-pod status once ResourcesReady is True:
phase "Succeeded" is success, phase "Failed" is `ErrRunnerFailed`, and in
every other case — pod status missing or phase undetermined — the watcher
assumes success (the explicit fallback in the Go code). -/
def podOutcome : Option String → WaitOutcome
  | some phase =>
    if phase = "Succeeded" then .ok
    else if phase = "Failed" then .runnerFailed
    else .ok
  | none => .ok

/-- The loop over `status.conditions` in the ACTIVE case: entries that are
not maps are skipped; the first condition with type "ResourcesReady" and
status "True" returns the pod-derived outcome; otherwise the scan falls
through. -/
def scanConditions (pod : Option String) : List (Option Condition) → Option WaitOutcome
  | [] => none
  | none :: rest => scanConditions pod rest
  | some c :: rest =>
    if c.condType = "ResourcesReady" && c.condStatus = "True" then
      some (podOutcome pod)
    else scanConditions pod rest

/-- Whether one `status.conditions` entry is a condition of type
"ResourcesReady" with status "True" (a non-map entry is not). -/
def isReadyCond : Option Condition → Bool
  | some c => c.condType = "ResourcesReady" && c.condStatus = "True"
  | none => false

/-- Whether the object carries a condition of type "ResourcesReady" with
status "True" (entries that are not maps do not count). -/
def hasResourcesReady (rg : RGObject) : Bool :=
  match rg.conditions with
  | none => false
  | some conds => conds.any isReadyCond

/-- Processing of one object event in `WaitForResourceGraph`: missing
`status.state` keeps waiting; the switch handles ACTIVE (scan conditions),
FAILED (`ErrRunnerFailed`), DELETED (success); any other state keeps
waiting. -/
def processObject (rg : RGObject) : StepResult :=
  match rg.state with
  | none => .cont
  | some state =>
    if state = "ACTIVE" then
      match rg.conditions with
      | none => .cont
      | some conds =>
        match scanConditions rg.podStatus conds with
        | some o => .done o
        | none => .cont
    else if state = "FAILED" then .done .runnerFailed
    else if state = "DELETED" then .done .ok
    else .cont

/-- One event received from the watch channel: a `watch.Error` event, an
object that fails the `*unstructured.Unstructured` cast, or an object. -/
inductive WatchEvent
  | errorEvent
  | badObject
  | object (rg : RGObject)
deriving DecidableEq, Repr

/-- Processing of one watch event: a `watch.Error` event is a hard failure;
a failed cast keeps waiting; otherwise the object is inspected. -/
def processEvent : WatchEvent → StepResult
  | .errorEvent => .done .watchError
  | .badObject => .cont
  | .object rg => processObject rg

/-- One wake-up of the `select` in the wait loop: either a watch event was
received, or the context's Done channel fired with the given `ctx.Err()`. -/
inductive LoopInput
  | recv (e : WatchEvent)
  | ctxDone (e : String)
deriving DecidableEq, Repr

/-- The wait loop over a finite trace of wake-ups: the first terminal event
decides the outcome; a fired context returns exactly the context's own error,
ignoring everything after it; `none` when the trace ends with the loop still
waiting. -/
def waitLoop : List LoopInput → Option WaitOutcome
  | [] => none
  | .recv e :: rest =>
    match processEvent e with
    | .done o => some o
    | .cont => waitLoop rest
  | .ctxDone e :: _ => some (.ctxError e)

/-- Result of one remote delete call as `DeleteResources` distinguishes
them: success, a not-found error (already clean), or any other error. -/
inductive DeleteOutcome
  | ok
  | notFound
  | otherError (e : String)
deriving DecidableEq, Repr

/-- The environment of one `DeleteResources` call: what the RGD list, the
instance delete, and the secret delete would return. -/
structure DeleteEnv where
  rgdList : Except String (List RGDItem)
  instanceDel : DeleteOutcome
  secretDel : DeleteOutcome
deriving DecidableEq, Repr

/-- The remote calls `DeleteResources` attempts: the RGD list always; the
instance delete only when re-discovery produced an RGD (otherwise the
failure is only logged); the secret delete only when the recorded secret
name is non-empty.  Delete outcomes are logged, never propagated. -/
def deleteCalls (r : KRORunnerCfg) (env : DeleteEnv) (st : Option AppContext) :
    List RemoteCall :=
  let ac := getAppContext st
  let runnerName := ac.vmiName
  let secretName := ac.dataVolumeName
  let afterRGD : List RemoteCall :=
    match findRGDByLabel env.rgdList with
    | .ok info =>
      [.rgdList (labelSelector r),
       .instanceDel (toResourceName info.kind) r.ns runnerName]
    | .error _ => [.rgdList (labelSelector r)]
  if secretName.length > 0 then afterRGD ++ [.secretDel r.ns secretName]
  else afterRGD

/-- `DeleteResources`: every branch only logs; the function returns nil
unconditionally, whatever the discovery and delete calls returned. -/
def DeleteResources (r : KRORunnerCfg) (env : DeleteEnv) (st : Option AppContext) :
    Except String Unit × List RemoteCall :=
  (.ok (), deleteCalls r env st)

/-- The three phase results the `run` sequence of cmd/kar/app consumes:
`none` is a nil error. -/
structure PhaseResults where
  createRes : Option String
  waitRes : Option String
  deleteRes : Option String
deriving DecidableEq, Repr

/-- Which lifecycle operations `run` invoked. -/
structure CallTrace where
  createCalled : Bool
  waitCalled : Bool
  deleteCalled : Bool
deriving DecidableEq, Repr

/-- The `run` function of cmd/kar/app: Create, then Wait, then Delete, each
aborting the sequence on error with a wrapped message; the returned trace
records which operations were invoked. -/
def run (p : PhaseResults) : Option String × CallTrace :=
  match p.createRes with
  | some e => (some ("fail to create resources: " ++ e), ⟨true, false, false⟩)
  | none =>
    match p.waitRes with
    | some e => (some ("fail to wait for resources: " ++ e), ⟨true, true, false⟩)
    | none =>
      match p.deleteRes with
      | some e => (some ("fail to delete resources: " ++ e), ⟨true, true, true⟩)
      | none => (none, ⟨true, true, true⟩)

/-- A Go context as `ensureValidCleanupContext` observes it: only its
`ctx.Err()` value (`none` while the context is live). -/
structure GoCtx where
  ctxErr : Option String
deriving DecidableEq, Repr

/-- The context returned by `ensureValidCleanupContext`: either derived from
the parent by `context.WithTimeout(parent, d)`, or built on a fresh
`context.TODO()` with the same timeout. -/
inductive CleanupCtx
  | derived (parent : GoCtx) (timeout : Nat)
  | freshBound (timeout : Nat)
deriving DecidableEq, Repr

/-- The timeout bounding a cleanup context. -/
def CleanupCtx.timeout : CleanupCtx → Nat
  | .derived _ d => d
  | .freshBound d => d

/-- Whether a cleanup context is already expired at the moment it is
created: a context derived by `WithTimeout` from an already-cancelled
parent is; one derived from a live parent, or built on a fresh
`context.TODO()`, is not (the timeout itself, being positive, only elapses
later). -/
def CleanupCtx.expiredAtCreation : CleanupCtx → Bool
  | .derived p _ => p.ctxErr.isSome
  | .freshBound _ => false

/-- `ensureValidCleanupContext` of cmd/kar: when the parent's error is
non-nil, a fresh `context.TODO()`-based context bounded by the cleanup
timeout; otherwise the parent itself bounded by the cleanup timeout. -/
def ensureValidCleanupContext (parent : GoCtx) (cleanupTimeout : Nat) : CleanupCtx :=
  if parent.ctxErr.isSome then .freshBound cleanupTimeout
  else .derived parent cleanupTimeout

/-! Theorems. -/

/-- A string has length zero exactly when it is the empty string. -/
theorem string_length_eq_zero {s : String} : s.length = 0 ↔ s = "" := by
  obtain ⟨l⟩ := s
  constructor
  · intro h
    have hl : l = [] := List.length_eq_zero.mp h
    subst hl
    rfl
  · intro h
    have hl : l = [] := by
      have hd := congrArg String.data h
      simpa using hd
    subst hl
    rfl

/-- C4: template discovery with zero label matches yields the not-found
error; two or more matches yield the ambiguity error; exactly one match
without the schema result-kind field yields the structural missing-kind
error, which differs from not-found; exactly one match with the field
yields that template's name, namespace and result-kind. -/
theorem c4_template_discovery_outcomes :
    (findRGDByLabel (.ok []) = .error .notFound) ∧
    (∀ (a b : RGDItem) (rest : List RGDItem),
      findRGDByLabel (.ok (a :: b :: rest)) = .error .ambiguous) ∧
    (∀ item : RGDItem, item.schemaKind = none →
      findRGDByLabel (.ok [item]) = .error (.missingKind item.name)) ∧
    (∀ (item : RGDItem) (k : String), item.schemaKind = some k →
      findRGDByLabel (.ok [item]) = .ok ⟨item.name, item.ns, k⟩) ∧
    (∀ n : String, RGDError.missingKind n ≠ RGDError.notFound) := by
  refine ⟨rfl, ?_, ?_, ?_, ?_⟩
  · intro a b rest
    simp [findRGDByLabel]
  · intro item h
    simp [findRGDByLabel, h]
  · intro item k h
    simp [findRGDByLabel, h]
  · intro n h
    cases h

/-- Witness for C4 at concrete template stores. -/
theorem c4_witness :
    findRGDByLabel (.ok [⟨"rgd-a", "ns", none⟩, ⟨"rgd-b", "ns", none⟩])
        = .error .ambiguous ∧
    findRGDByLabel (.ok [⟨"rgd-a", "ns", none⟩])
        = .error (.missingKind "rgd-a") ∧
    findRGDByLabel (.ok [⟨"rgd-a", "ns", some "PodRunner"⟩])
        = .ok ⟨"rgd-a", "ns", "PodRunner"⟩ :=
  ⟨c4_template_discovery_outcomes.2.1 ⟨"rgd-a", "ns", none⟩ ⟨"rgd-b", "ns", none⟩ [],
   c4_template_discovery_outcomes.2.2.1 ⟨"rgd-a", "ns", none⟩ rfl,
   c4_template_discovery_outcomes.2.2.2.1 ⟨"rgd-a", "ns", some "PodRunner"⟩ "PodRunner" rfl⟩

/-- C5: DeleteResources returns nil for every combination of discovery,
instance-delete and secret-delete outcomes, and in particular two calls in
a row — the second against already-absent objects — both return nil. -/
theorem c5_delete_always_succeeds :
    ∀ (r : KRORunnerCfg) (st : Option AppContext) (env1 env2 : DeleteEnv),
      (DeleteResources r env1 st).1 = .ok () ∧
      (DeleteResources r env2 st).1 = .ok () :=
  fun _ _ _ _ => ⟨rfl, rfl⟩

/-- C2 counterexample: when Wait returns the runner-failed error, the run
sequence returns without invoking Delete — contradicting the claim that
Delete is attempted after every completed Wait. -/
theorem c2_counterexample :
    (run ⟨none, some "runner execution failed", none⟩).2.deleteCalled = false := rfl

/-- C2 (amended): in the run sequence, Delete is invoked exactly when both
Create and Wait returned nil; Create is always invoked, and Wait exactly
when Create returned nil — so a Wait error (runner failure or otherwise)
aborts the run without an in-process Delete. -/
theorem c2_amended_delete_only_after_wait_ok :
    ∀ p : PhaseResults,
      (run p).2.deleteCalled = (p.createRes.isNone && p.waitRes.isNone) ∧
      (run p).2.createCalled = true ∧
      (run p).2.waitCalled = p.createRes.isNone := by
  intro p
  obtain ⟨c, w, d⟩ := p
  cases c <;> cases w <;> cases d <;> simp [run]

/-- C8: the cleanup-context helper derives from the parent exactly when the
parent is not cancelled, substitutes a fresh context when the parent's error
is non-nil, always bounds the result by the cleanup timeout, and never
returns a context already expired at creation. -/
theorem c8_cleanup_context :
    ∀ (parent : GoCtx) (d : Nat),
      (parent.ctxErr = none →
        ensureValidCleanupContext parent d = .derived parent d) ∧
      (parent.ctxErr ≠ none →
        ensureValidCleanupContext parent d = .freshBound d) ∧
      (ensureValidCleanupContext parent d).timeout = d ∧
      (ensureValidCleanupContext parent d).expiredAtCreation = false := by
  intro parent d
  obtain ⟨oe⟩ := parent
  cases oe <;>
    simp [ensureValidCleanupContext, CleanupCtx.timeout, CleanupCtx.expiredAtCreation]

/-- Witness for C8 at a live parent and at a cancelled parent. -/
theorem c8_witness :
    ensureValidCleanupContext ⟨none⟩ 300 = .derived ⟨none⟩ 300 ∧
    ensureValidCleanupContext ⟨some "context canceled"⟩ 300 = .freshBound 300 :=
  ⟨(c8_cleanup_context ⟨none⟩ 300).1 rfl,
   (c8_cleanup_context ⟨some "context canceled"⟩ 300).2.1 (by simp)⟩

/-- On success, `CreateResources` records the context (runnerName, "") and
the remote create call did succeed. -/
theorem create_ok_state (r : KRORunnerCfg) (env : CreateEnv) (st : Option AppContext)
    (name jit : String) (h : (CreateResources r env st name jit).1 = .ok ()) :
    (CreateResources r env st name jit).2.1 = some ⟨name, ""⟩ ∧
    env.instanceCreate = .ok () := by
  obtain ⟨pg, rl, ic, now⟩ := env
  by_cases h1 : name.length = 0 <;> by_cases h2 : jit.length = 0 <;>
    cases pg <;> rcases hf : findRGDByLabel rl with e | info <;> cases ic <;>
      simp_all [CreateResources]

/-- On any error, `CreateResources` leaves the process-local context exactly
as it was. -/
theorem create_error_state (r : KRORunnerCfg) (env : CreateEnv) (st : Option AppContext)
    (name jit : String) (e : CreateError)
    (h : (CreateResources r env st name jit).1 = .error e) :
    (CreateResources r env st name jit).2.1 = st := by
  obtain ⟨pg, rl, ic, now⟩ := env
  by_cases h1 : name.length = 0 <;> by_cases h2 : jit.length = 0 <;>
    cases pg <;> rcases hf : findRGDByLabel rl with e2 | info <;> cases ic <;>
      simp_all [CreateResources]

/-- C3: an empty runner name yields the EmptyRunnerName error and an empty
JIT config (with a non-empty runner name) yields the EmptyJitConfig error;
in both cases no remote call is attempted, the context is unchanged, and no
instance object is built. -/
theorem c3_create_input_validation :
    ∀ (r : KRORunnerCfg) (env : CreateEnv) (st : Option AppContext) (name jit : String),
      (name = "" →
        CreateResources r env st name jit = (.error .emptyRunnerName, st, [], none)) ∧
      (name ≠ "" → jit = "" →
        CreateResources r env st name jit = (.error .emptyJitConfig, st, [], none)) := by
  intro r env st name jit
  constructor
  · intro h
    subst h
    simp [CreateResources]
  · intro hn hj
    subst hj
    have hlen : name.length ≠ 0 := fun h => hn (string_length_eq_zero.mp h)
    simp [CreateResources, hlen]

/-- Witness for C3 at concrete inputs. -/
theorem c3_witness :
    CreateResources ⟨"ns", "ss"⟩ ⟨.ok ⟨"runner-1", "u1"⟩, .ok [], .ok (), "t0"⟩ none "" "cfg"
        = (.error .emptyRunnerName, none, [], none) ∧
    CreateResources ⟨"ns", "ss"⟩ ⟨.ok ⟨"runner-1", "u1"⟩, .ok [], .ok (), "t0"⟩ none "runner-1" ""
        = (.error .emptyJitConfig, none, [], none) :=
  ⟨(c3_create_input_validation ⟨"ns", "ss"⟩ ⟨.ok ⟨"runner-1", "u1"⟩, .ok [], .ok (), "t0"⟩
      none "" "cfg").1 rfl,
   (c3_create_input_validation ⟨"ns", "ss"⟩ ⟨.ok ⟨"runner-1", "u1"⟩, .ok [], .ok (), "t0"⟩
      none "runner-1" "").2 (by decide) rfl⟩

/-- C7: two runs of `CreateResources` that differ only in a non-empty JIT
config produce identical outputs — in particular identical instance objects
(spec, labels, annotations, name, owner references) and identical remote
calls; the credential payload does not interfere. -/
theorem c7_jitconfig_noninterference :
    ∀ (r : KRORunnerCfg) (env : CreateEnv) (st : Option AppContext) (name j1 j2 : String),
      j1 ≠ "" → j2 ≠ "" →
      CreateResources r env st name j1 = CreateResources r env st name j2 := by
  intro r env st name j1 j2 h1 h2
  have l1 : j1.length ≠ 0 := fun h => h1 (string_length_eq_zero.mp h)
  have l2 : j2.length ≠ 0 := fun h => h2 (string_length_eq_zero.mp h)
  simp [CreateResources, l1, l2]

/-- Witness for C7 at two concrete credential payloads. -/
theorem c7_witness :
    CreateResources ⟨"ns", "ss"⟩
        ⟨.ok ⟨"runner-1", "u1"⟩, .ok [⟨"rgd-a", "ns", some "PodRunner"⟩], .ok (), "t0"⟩
        none "runner-1" "cfg-a"
      = CreateResources ⟨"ns", "ss"⟩
        ⟨.ok ⟨"runner-1", "u1"⟩, .ok [⟨"rgd-a", "ns", some "PodRunner"⟩], .ok (), "t0"⟩
        none "runner-1" "cfg-b" :=
  c7_jitconfig_noninterference ⟨"ns", "ss"⟩
    ⟨.ok ⟨"runner-1", "u1"⟩, .ok [⟨"rgd-a", "ns", some "PodRunner"⟩], .ok (), "t0"⟩
    none "runner-1" "cfg-a" "cfg-b" (by decide) (by decide)

/-- C10: `CreateResources` mutates the process-local context only on full
success — every error leaves it untouched, and on success it becomes
(runnerName, "") with the remote create call having succeeded. -/
theorem c10_create_atomicity :
    ∀ (r : KRORunnerCfg) (env : CreateEnv) (st : Option AppContext) (name jit : String),
      ((CreateResources r env st name jit).1 = .ok () →
        (CreateResources r env st name jit).2.1 = some ⟨name, ""⟩ ∧
        env.instanceCreate = .ok ()) ∧
      (∀ e, (CreateResources r env st name jit).1 = .error e →
        (CreateResources r env st name jit).2.1 = st) :=
  fun r env st name jit =>
    ⟨create_ok_state r env st name jit,
     fun e => create_error_state r env st name jit e⟩

/-- Witness for C10: a successful run sets the context, a failing remote
create leaves the previous context in place. -/
theorem c10_witness :
    (CreateResources ⟨"ns", "ss"⟩
        ⟨.ok ⟨"runner-1", "u1"⟩, .ok [⟨"rgd-a", "ns", some "PodRunner"⟩], .ok (), "t0"⟩
        (some ⟨"old", "olds"⟩) "runner-1" "cfg").2.1 = some ⟨"runner-1", ""⟩ ∧
    (CreateResources ⟨"ns", "ss"⟩
        ⟨.ok ⟨"runner-1", "u1"⟩, .ok [⟨"rgd-a", "ns", some "PodRunner"⟩], .error "boom", "t0"⟩
        (some ⟨"old", "olds"⟩) "runner-1" "cfg").2.1 = some ⟨"old", "olds"⟩ :=
  ⟨((c10_create_atomicity ⟨"ns", "ss"⟩
      ⟨.ok ⟨"runner-1", "u1"⟩, .ok [⟨"rgd-a", "ns", some "PodRunner"⟩], .ok (), "t0"⟩
      (some ⟨"old", "olds"⟩) "runner-1" "cfg").1 (by decide)).1,
   (c10_create_atomicity ⟨"ns", "ss"⟩
      ⟨.ok ⟨"runner-1", "u1"⟩, .ok [⟨"rgd-a", "ns", some "PodRunner"⟩], .error "boom", "t0"⟩
      (some ⟨"old", "olds"⟩) "runner-1" "cfg").2 (.createFailed "boom") (by decide)⟩

/-- With an empty recorded secret name, `DeleteResources` never attempts a
secret deletion. -/
theorem deleteCalls_no_secret (r : KRORunnerCfg) (env : DeleteEnv) (name : String) :
    noSecretDel (deleteCalls r env (some ⟨name, ""⟩)) = true := by
  rcases hf : findRGDByLabel env.rgdList with e | info <;>
    simp [deleteCalls, getAppContext, hf, noSecretDel, RemoteCall.isSecretDel]

/-- C9: a runner context established by a successful `CreateResources`
records the empty string as secret name, and a `DeleteResources` run on that
context issues no secret-deletion call — the secret-cleanup branch is
unreachable via the in-process Create, Wait, Delete lifecycle. -/
theorem c9_secret_branch_unreachable :
    ∀ (r r2 : KRORunnerCfg) (env : CreateEnv) (denv : DeleteEnv) (st : Option AppContext)
      (name jit : String),
      (CreateResources r env st name jit).1 = .ok () →
      (getAppContext (CreateResources r env st name jit).2.1).dataVolumeName = "" ∧
      noSecretDel (DeleteResources r2 denv (CreateResources r env st name jit).2.1).2 = true := by
  intro r r2 env denv st name jit h
  have hst := (create_ok_state r env st name jit h).1
  rw [hst]
  exact ⟨rfl, deleteCalls_no_secret r2 denv name⟩

/-- Witness for C9 at a concrete successful creation followed by cleanup. -/
theorem c9_witness :
    (getAppContext (CreateResources ⟨"ns", "ss"⟩
        ⟨.ok ⟨"runner-1", "u1"⟩, .ok [⟨"rgd-a", "ns", some "PodRunner"⟩], .ok (), "t0"⟩
        none "runner-1" "cfg").2.1).dataVolumeName = "" ∧
    noSecretDel (DeleteResources ⟨"ns", "ss"⟩ ⟨.ok [⟨"rgd-a", "ns", some "PodRunner"⟩], .ok, .ok⟩
        (CreateResources ⟨"ns", "ss"⟩
          ⟨.ok ⟨"runner-1", "u1"⟩, .ok [⟨"rgd-a", "ns", some "PodRunner"⟩], .ok (), "t0"⟩
          none "runner-1" "cfg").2.1).2 = true :=
  c9_secret_branch_unreachable ⟨"ns", "ss"⟩ ⟨"ns", "ss"⟩
    ⟨.ok ⟨"runner-1", "u1"⟩, .ok [⟨"rgd-a", "ns", some "PodRunner"⟩], .ok (), "t0"⟩
    ⟨.ok [⟨"rgd-a", "ns", some "PodRunner"⟩], .ok, .ok⟩
    none "runner-1" "cfg" (by decide)

/-- The condition scan returns the pod-derived outcome exactly when some
entry is a ResourcesReady=True condition, and falls through otherwise. -/
theorem scanConditions_eq (pod : Option String) (conds : List (Option Condition)) :
    scanConditions pod conds =
      if conds.any isReadyCond then some (podOutcome pod) else none := by
  induction conds with
  | nil => rfl
  | cons c rest ih =>
    cases c with
    | none => simpa [scanConditions, isReadyCond] using ih
    | some c =>
      by_cases h : (c.condType = "ResourcesReady" && c.condStatus = "True") = true
      · simp [scanConditions, isReadyCond, h]
      · simp [scanConditions, isReadyCond, h, ih]

/-- C1: per watch event carrying a status.state, the watcher returns
RunnerFailed on FAILED, success on DELETED; on ACTIVE with a
ResourcesReady=True condition it returns success for pod phase Succeeded,
RunnerFailed for phase Failed, and success (assumed) when the pod status is
unavailable; a missing state, any other state, or ACTIVE without
ResourcesReady=True keeps the loop waiting. -/
theorem c1_wait_event_outcomes :
    ∀ rg : RGObject,
      (rg.state = some "FAILED" → processObject rg = .done .runnerFailed) ∧
      (rg.state = some "DELETED" → processObject rg = .done .ok) ∧
      (rg.state = some "ACTIVE" → hasResourcesReady rg = true →
        (rg.podStatus = some "Succeeded" → processObject rg = .done .ok) ∧
        (rg.podStatus = some "Failed" → processObject rg = .done .runnerFailed) ∧
        (rg.podStatus = none → processObject rg = .done .ok)) ∧
      (rg.state = none → processObject rg = .cont) ∧
      (∀ s, rg.state = some s → s ≠ "ACTIVE" → s ≠ "FAILED" → s ≠ "DELETED" →
        processObject rg = .cont) ∧
      (rg.state = some "ACTIVE" → hasResourcesReady rg = false → processObject rg = .cont) := by
  intro rg
  obtain ⟨state, conds, pod⟩ := rg
  refine ⟨?_, ?_, ?_, ?_, ?_, ?_⟩
  · intro h
    subst h
    simp [processObject]
  · intro h
    subst h
    simp [processObject]
  · intro h hready
    subst h
    cases conds with
    | none => simp [hasResourcesReady] at hready
    | some l =>
      simp only [hasResourcesReady] at hready
      have hscan : scanConditions pod l = some (podOutcome pod) := by
        rw [scanConditions_eq, hready]
        simp
      refine ⟨?_, ?_, ?_⟩ <;> intro hp <;> subst hp <;>
        simp [processObject, hscan, podOutcome]
  · intro h
    subst h
    rfl
  · intro s h hA hF hD
    subst h
    simp [processObject, hA, hF, hD]
  · intro h hready
    subst h
    cases conds with
    | none => simp [processObject]
    | some l =>
      simp only [hasResourcesReady] at hready
      have hscan : scanConditions pod l = none := by
        rw [scanConditions_eq, hready]
        simp
      simp [processObject, hscan]

/-- Witness for C1 at concrete watch objects covering every branch. -/
theorem c1_witness :
    processObject ⟨some "FAILED", none, none⟩ = .done .runnerFailed ∧
    processObject ⟨some "DELETED", none, none⟩ = .done .ok ∧
    processObject ⟨some "ACTIVE", some [some ⟨"ResourcesReady", "True"⟩], some "Succeeded"⟩
      = .done .ok ∧
    processObject ⟨some "ACTIVE", some [some ⟨"ResourcesReady", "True"⟩], some "Failed"⟩
      = .done .runnerFailed ∧
    processObject ⟨some "ACTIVE", some [some ⟨"ResourcesReady", "True"⟩], none⟩
      = .done .ok ∧
    processObject ⟨none, none, none⟩ = .cont ∧
    processObject ⟨some "PENDING", none, none⟩ = .cont ∧
    processObject ⟨some "ACTIVE", some [some ⟨"ResourcesReady", "False"⟩], none⟩ = .cont :=
  ⟨(c1_wait_event_outcomes ⟨some "FAILED", none, none⟩).1 rfl,
   (c1_wait_event_outcomes ⟨some "DELETED", none, none⟩).2.1 rfl,
   ((c1_wait_event_outcomes
      ⟨some "ACTIVE", some [some ⟨"ResourcesReady", "True"⟩], some "Succeeded"⟩).2.2.1
      rfl (by decide)).1 rfl,
   ((c1_wait_event_outcomes
      ⟨some "ACTIVE", some [some ⟨"ResourcesReady", "True"⟩], some "Failed"⟩).2.2.1
      rfl (by decide)).2.1 rfl,
   ((c1_wait_event_outcomes
      ⟨some "ACTIVE", some [some ⟨"ResourcesReady", "True"⟩], none⟩).2.2.1
      rfl (by decide)).2.2 rfl,
   (c1_wait_event_outcomes ⟨none, none, none⟩).2.2.2.1 rfl,
   (c1_wait_event_outcomes ⟨some "PENDING", none, none⟩).2.2.2.2.1 "PENDING" rfl
     (by decide) (by decide) (by decide),
   (c1_wait_event_outcomes ⟨some "ACTIVE", some [some ⟨"ResourcesReady", "False"⟩], none⟩).2.2.2.2.2
     rfl (by decide)⟩

/-- C6: when the context fires before any terminal event — every earlier
wake-up being a non-terminal watch event — the wait loop stops and returns
exactly the context's own error, ignoring anything after it. -/
theorem c6_cancellation_returns_ctx_error :
    ∀ (pre rest : List LoopInput) (e : String),
      (∀ i ∈ pre, ∃ ev, i = .recv ev ∧ processEvent ev = .cont) →
      waitLoop (pre ++ .ctxDone e :: rest) = some (.ctxError e) := by
  intro pre rest e h
  induction pre with
  | nil => rfl
  | cons i pre ih =>
    obtain ⟨ev, rfl, hev⟩ := h i (List.mem_cons_self _ _)
    simp only [List.cons_append, waitLoop, hev]
    exact ih fun j hj => h j (List.mem_cons_of_mem _ hj)

/-- Witness for C6: a pending event, then cancellation, then a late terminal
event never reached. -/
theorem c6_witness :
    waitLoop [.recv (.object ⟨none, none, none⟩),
              .ctxDone "context deadline exceeded",
              .recv .errorEvent]
      = some (.ctxError "context deadline exceeded") :=
  c6_cancellation_returns_ctx_error
    [.recv (.object ⟨none, none, none⟩)] [.recv .errorEvent] "context deadline exceeded"
    (by
      intro i hi
      rw [List.mem_singleton] at hi
      subst hi
      exact ⟨_, rfl, rfl⟩)

end KroRunner
